import Mathlib

/-!
# Appointment scheduler of the clinic backend: shallow embedding

This file embeds the appointment (cita) subsystem of the backend —
`src/controllers/citas.js`, `src/routes/citas.js` and `src/models/cita.js` —
and proves the scheduling claims about it: the half-open overlap predicate,
the state-transition behaviour of `cambiarEstadoCita`, the atomicity of
`reprogramarCita`, the frame of `actualizarCita`, and the cancellation
metadata of `cancelarCita`.

Timestamps are embedded as `Int` (milliseconds, the value of
`Date.getTime()`); document ids as `Nat`.  A Mongo collection is a
`List Cita`; `findById` / `findOne` are `List.find?`, and `save` is
replace-by-id-or-append.  `express-validator` checks on the citas routes
that only constrain the *format* of a field (`isMongoId`, `isISO8601`)
are absorbed by the types `Nat` / `Int` of the embedding; checks with
semantic content (`notEmpty`, `isIn`) are embedded explicitly.
-/

/-- `cita.estado`: the state enum of `citaSchema` in `src/models/cita.js`. -/
inductive Estado
  | programada
  | confirmada
  | en_curso
  | completada
  | cancelada
  | reprogramada
  | no_asistio
deriving DecidableEq, Repr

/-- `cita.canceladoPor`: enum of `citaSchema` (default `no_aplica`). -/
inductive CanceladoPor
  | paciente
  | medico
  | sistema
  | no_aplica
deriving DecidableEq, Repr

/-- `req.user.rol`: the role enum of `userSchema` in `src/models/user.js`. -/
inductive Rol
  | administrador
  | medico
  | secretaria
  | paciente
deriving DecidableEq, Repr

/-- Channel of an entry of `cita.recordatoriosEnviados`. -/
inductive Canal
  | email
  | sms
deriving DecidableEq, Repr

/-- One entry of `cita.recordatoriosEnviados` (`{tipo, fecha, estado}`);
the code only ever pushes entries with `estado: 'enviado'`, embedded as the
literal string. -/
structure Recordatorio where
  tipo : Canal
  fecha : Int
  envio : String
deriving DecidableEq, Repr

/-- The `Cita` document, after `citaSchema` in `src/models/cita.js`.
`notas` and `motivoCancelacion` are `Option String` because the schema does
not require them; `citaOriginal` defaults to `null`. -/
structure Cita where
  id : Nat
  paciente : Nat
  medico : Nat
  tratamiento : Nat
  fechaInicio : Int
  fechaFin : Int
  estado : Estado
  notas : Option String
  citaOriginal : Option Nat
  recordatoriosEnviados : List Recordatorio
  canceladoPor : CanceladoPor
  motivoCancelacion : Option String
deriving DecidableEq, Repr

/-- A `Paciente` document restricted to the fields the citas controller
reads: its id, the populated `usuario`'s contact fields, and the
notification preferences. -/
structure Paciente where
  id : Nat
  usuarioNombre : String
  usuarioEmail : Option String
  usuarioTelefono : Option String
  recordatoriosEmail : Bool
  recordatoriosSMS : Bool
deriving DecidableEq, Repr

/-- A `User` document restricted to the fields the citas controller reads. -/
structure Usuario where
  id : Nat
  rol : Rol
  activo : Bool
deriving DecidableEq, Repr

/-- A `Tratamiento` document restricted to the fields the citas controller
reads; `profesionalesHabilitados` is the possibly-empty list of enabled
practitioner ids. -/
structure Tratamiento where
  id : Nat
  activo : Bool
  profesionalesHabilitados : List Nat
deriving DecidableEq, Repr

/-- The collections the citas controller queries besides `Cita`. -/
structure Entorno where
  pacientes : List Paciente
  usuarios : List Usuario
  tratamientos : List Tratamiento
deriving Repr

/-- Error responses the citas controller can produce (each constructor is
one distinct non-2xx response of `src/controllers/citas.js`, plus the
route-level 400 of the express-validator `validate` middleware). -/
inductive ErrorRespuesta
  | pacienteNoEncontrado
  | medicoNoEncontrado
  | tratamientoNoEncontrado
  | medicoNoHabilitado
  | conflictoHorario
  | citaNoEncontrada
  | estadoFinalInmutable (actual : Estado)
  | noActualizable (actual : Estado)
  | noReprogramable (actual : Estado)
  | noCancelable (actual : Estado)
  | sinPermiso
  | datosNoValidos
  | errorInterno
deriving DecidableEq, Repr

/-- JS truthiness of an optional string (`undefined` and `''` are falsy). -/
def truthy : Option String → Bool
  | none => false
  | some s => s ≠ ""

/-- `a || d` on an optional string under JS truthiness. -/
def oPorDefecto (o : Option String) (d : String) : String :=
  match o with
  | none => d
  | some s => if s = "" then d else s

/-- `Cita.findById` over the embedded collection. -/
def buscarCita (store : List Cita) (id : Nat) : Option Cita :=
  store.find? (fun c => c.id = id)

/-- `document.save()`: replace the document with this id, or insert it. -/
def guardarCita (store : List Cita) (c : Cita) : List Cita :=
  if store.any (fun x => x.id = c.id) then
    store.map (fun x => if x.id = c.id then c else x)
  else
    store ++ [c]

/-- The three-clause `$or` of the conflict queries in `crearCita`,
`actualizarCita` and `reprogramarCita` (lines 164-175, 370-381, 588-599 of
`src/controllers/citas.js`), applied to one stored cita `c` and the
candidate window `[s, e)`:
1. `fechaInicio: { $gte: s, $lt: e }`
2. `fechaFin: { $gt: s, $lte: e }`
3. `fechaInicio: { $lte: s }, fechaFin: { $gte: e }`. -/
def clausulasSolape (s e : Int) (c : Cita) : Bool :=
  (s ≤ c.fechaInicio && c.fechaInicio < e) ||
  (s < c.fechaFin && c.fechaFin ≤ e) ||
  (c.fechaInicio ≤ s && e ≤ c.fechaFin)

/-- The spec's half-open intersection predicate on windows `[s1,e1)` and
`[s2,e2)`: `s1 < e2 AND s2 < e1`.  Written from the spec's words, to be
compared with `clausulasSolape`, which is written from the source. -/
def seSolapanSpec (s1 e1 s2 e2 : Int) : Bool :=
  s1 < e2 && s2 < e1

/-- The full conflict query `Cita.findOne({...})` shared by the three
operations: optionally excluding one id (`_id: { $ne: citaId }`), same
practitioner, `estado: { $nin: ['cancelada', 'reprogramada'] }`, and the
three-clause window test. -/
def buscarCitaSolapada (store : List Cita) (excluir : Option Nat)
    (medico : Nat) (s e : Int) : Option Cita :=
  store.find? (fun c =>
    (match excluir with | some i => c.id ≠ i | none => true) &&
    c.medico = medico &&
    c.estado ≠ Estado.cancelada && c.estado ≠ Estado.reprogramada &&
    clausulasSolape s e c)

/-- A sample stored cita used by concrete checks: practitioner 7, window
`[20, 30)`, state `programada`. -/
def citaEjemplo : Cita where
  id := 1
  paciente := 3
  medico := 7
  tratamiento := 4
  fechaInicio := 20
  fechaFin := 30
  estado := Estado.programada
  notas := some "control"
  citaOriginal := none
  recordatoriosEnviados := []
  canceladoPor := CanceladoPor.no_aplica
  motivoCancelacion := none

example : clausulasSolape 10 20 citaEjemplo = false := by decide

example : clausulasSolape 10 21 citaEjemplo = true := by decide

/-- The request body of `POST /api/citas` after the route-level format
validators (`isMongoId`, `isISO8601`) have passed. -/
structure SolicitudCrear where
  paciente : Nat
  medico : Nat
  tratamiento : Nat
  fechaInicio : Int
  fechaFin : Int
  notas : Option String
deriving DecidableEq, Repr

/-- The notification block of `crearCita` (lines 199-245): one `try` whose
body sends the email (when the patient prefers email and has an address)
and then the SMS; an exception anywhere is caught and ignored, so a failed
email send also skips the SMS branch, and a recordatorio entry is persisted
only for a send that succeeded before the exception. `emailOk` / `smsOk`
say whether the corresponding service call returns or throws. -/
def notificarCreacion (p : Paciente) (c : Cita) (ahora : Int)
    (emailOk smsOk : Bool) : Cita :=
  let quiereEmail := p.recordatoriosEmail && p.usuarioEmail.isSome
  if quiereEmail && !emailOk then c
  else
    let c1 := if quiereEmail then
      { c with recordatoriosEnviados :=
          c.recordatoriosEnviados ++ [⟨Canal.email, ahora, "enviado"⟩] }
      else c
    let quiereSMS := p.recordatoriosSMS && p.usuarioTelefono.isSome
    if quiereSMS && !smsOk then c1
    else if quiereSMS then
      { c1 with recordatoriosEnviados :=
          c1.recordatoriosEnviados ++ [⟨Canal.sms, ahora, "enviado"⟩] }
      else c1

/-- The notification block shared by `actualizarCita` (lines 404-435) and
`reprogramarCita` (lines 631-660): look the patient up, send the email when
preferred, push an `email` recordatorio on success; every exception
(including a missing patient) is caught and ignored. -/
def notificarCorreo (pacientes : List Paciente) (c : Cita) (ahora : Int)
    (emailOk : Bool) : Cita :=
  match pacientes.find? (fun p => p.id = c.paciente) with
  | none => c
  | some p =>
    if p.recordatoriosEmail && p.usuarioEmail.isSome && emailOk then
      { c with recordatoriosEnviados :=
          c.recordatoriosEnviados ++ [⟨Canal.email, ahora, "enviado"⟩] }
    else c

/-- The document `new Cita({...})` built by `crearCita` (lines 186-194):
state `programada`, schema defaults for the remaining fields. -/
def citaNueva (req : SolicitudCrear) (idNuevo : Nat) : Cita :=
  ⟨idNuevo, req.paciente, req.medico, req.tratamiento,
   req.fechaInicio, req.fechaFin, Estado.programada, req.notas,
   none, [], CanceladoPor.no_aplica, none⟩

/-- `crearCita` (lines 105-269): directory lookups, eligibility check,
conflict query, then creation in state `programada` followed by the
best-effort notification block. `idNuevo` is the fresh `_id` Mongo assigns
to the new document and `ahora` the current time. -/
def crearCita (env : Entorno) (store : List Cita) (req : SolicitudCrear)
    (idNuevo : Nat) (ahora : Int) (emailOk smsOk : Bool) :
    Except ErrorRespuesta (List Cita × Cita) :=
  match env.pacientes.find? (fun p => p.id = req.paciente) with
  | none => .error .pacienteNoEncontrado
  | some pac =>
    match env.usuarios.find? (fun u =>
        u.id = req.medico && u.rol = Rol.medico && u.activo) with
    | none => .error .medicoNoEncontrado
    | some _ =>
      match env.tratamientos.find? (fun t => t.id = req.tratamiento && t.activo) with
      | none => .error .tratamientoNoEncontrado
      | some trat =>
        if trat.profesionalesHabilitados ≠ [] &&
            req.medico ∉ trat.profesionalesHabilitados then
          .error .medicoNoHabilitado
        else if (buscarCitaSolapada store none req.medico
            req.fechaInicio req.fechaFin).isSome then
          .error .conflictoHorario
        else
          let nueva := citaNueva req idNuevo
          let store1 := guardarCita store nueva
          let nueva2 := notificarCreacion pac nueva ahora emailOk smsOk
          .ok (guardarCita store1 nueva2, nueva2)

/-- `actualizarCita` (lines 335-459): rejects terminal states, re-runs the
conflict query (excluding this cita's own id) when either bound changes,
updates the provided bounds and notes, then re-notifies by email whenever a
date field was present in the request at all. -/
def actualizarCita (store : List Cita) (pacientes : List Paciente)
    (citaId : Nat) (fechaInicio fechaFin : Option Int) (notas : Option String)
    (ahora : Int) (emailOk : Bool) :
    Except ErrorRespuesta (List Cita × Cita) :=
  match buscarCita store citaId with
  | none => .error .citaNoEncontrada
  | some cita =>
    if cita.estado = Estado.cancelada ∨ cita.estado = Estado.completada ∨
        cita.estado = Estado.no_asistio then
      .error (.noActualizable cita.estado)
    else
      let cambiaFecha :=
        (match fechaInicio with
         | some f => f ≠ cita.fechaInicio
         | none => false) ||
        (match fechaFin with
         | some f => f ≠ cita.fechaFin
         | none => false)
      let nuevoInicio := fechaInicio.getD cita.fechaInicio
      let nuevoFin := fechaFin.getD cita.fechaFin
      if cambiaFecha &&
          (buscarCitaSolapada store (some citaId) cita.medico
            nuevoInicio nuevoFin).isSome then
        .error .conflictoHorario
      else
        let c1 := if cambiaFecha then
          { cita with fechaInicio := nuevoInicio, fechaFin := nuevoFin }
          else cita
        let c2 := match notas with
          | some n => { c1 with notas := some n }
          | none => c1
        let store1 := guardarCita store c2
        if fechaInicio.isSome || fechaFin.isSome then
          let c3 := notificarCorreo pacientes c2 ahora emailOk
          .ok (guardarCita store1 c3, c3)
        else
          .ok (store1, c2)

/-- The terminal states of `cambiarEstadoCita` (line 491): `reprogramada`
is *not* in this list. -/
def estadosFinales : List Estado :=
  [Estado.completada, Estado.cancelada, Estado.no_asistio]

/-- `cambiarEstadoCita` (lines 466-547).  `estado` arrives as a member of
the enum because the route validator (`isIn` over the seven state names)
and the controller's own `estadosValidos.includes` check have passed.  The
only transition restriction is: a cita whose current state is in
`estadosFinales` cannot move to a *different* state.  Entering `cancelada`
records who cancelled (from the caller's role) and a reason defaulting
under JS truthiness; entering `no_asistio` records fixed metadata. -/
def cambiarEstadoCita (store : List Cita) (rol : Rol) (citaId : Nat)
    (estado : Estado) (notas : Option String) :
    Except ErrorRespuesta (List Cita × Cita) :=
  match buscarCita store citaId with
  | none => .error .citaNoEncontrada
  | some cita =>
    if estadosFinales.contains cita.estado && cita.estado ≠ estado then
      .error (.estadoFinalInmutable cita.estado)
    else
      let c1 := { cita with estado := estado }
      let c2 := match notas with
        | some n => { c1 with notas := some n }
        | none => c1
      let c3 :=
        if estado = Estado.cancelada then
          { c2 with
            canceladoPor := if rol = Rol.paciente then CanceladoPor.paciente
                            else CanceladoPor.medico,
            motivoCancelacion := some (oPorDefecto notas "No se especificó motivo") }
        else if estado = Estado.no_asistio then
          { c2 with
            canceladoPor := CanceladoPor.no_aplica,
            motivoCancelacion := some "Paciente no asistió" }
        else c2
      .ok (guardarCita store c3, c3)

/-- Failure-injection points for `reprogramarCita`'s transaction: between
the two session `save`s, or after both saves but before
`commitTransaction`.  On any injected failure the `catch` block runs
`abortTransaction`, so no buffered write reaches the store. -/
inductive PuntoFallo
  | ninguno
  | entreGuardados
  | antesCommit
deriving DecidableEq, Repr

/-- `commitTransaction`: apply the session's buffered saves in order. -/
def confirmarSesion (store : List Cita) (buffer : List Cita) : List Cita :=
  buffer.foldl guardarCita store

/-- The original cita as `reprogramarCita` retires it (lines 609-612). -/
def citaRetirada (cita : Cita) (rol : Rol) (motivo : Option String) : Cita :=
  { cita with
    estado := Estado.reprogramada,
    motivoCancelacion := some (oPorDefecto motivo "Cita reprogramada"),
    canceladoPor := if rol = Rol.paciente then CanceladoPor.paciente
                    else CanceladoPor.medico }

/-- The successor `new Cita({...})` built by `reprogramarCita`
(lines 617-626): same paciente/medico/tratamiento/notas, the new window,
`citaOriginal` pointing back at the retired cita. -/
def citaSucesora (cita : Cita) (fechaInicio fechaFin : Int)
    (idNuevo : Nat) : Cita :=
  ⟨idNuevo, cita.paciente, cita.medico, cita.tratamiento,
   fechaInicio, fechaFin, Estado.programada, cita.notas,
   some cita.id, [], CanceladoPor.no_aplica, none⟩

/-- `reprogramarCita` (lines 554-694): refuses terminal and already
`reprogramada` states, runs the conflict query excluding this cita's id,
then inside one transaction retires the original (state `reprogramada`,
cancellation metadata from the caller's role and the given reason) and
creates the successor (`programada`, same paciente/medico/tratamiento/notas,
new window, `citaOriginal` back-reference).  The email notification block
runs before commit and its failures are swallowed.  Returns the store
after the operation together with the response. -/
def reprogramarCita (store : List Cita) (pacientes : List Paciente)
    (rol : Rol) (citaId : Nat) (fechaInicio fechaFin : Int)
    (motivo : Option String) (idNuevo : Nat) (ahora : Int) (emailOk : Bool)
    (fallo : PuntoFallo) :
    List Cita × Except ErrorRespuesta (Cita × Cita) :=
  match buscarCita store citaId with
  | none => (store, .error .citaNoEncontrada)
  | some cita =>
    if cita.estado = Estado.cancelada ∨ cita.estado = Estado.completada ∨
        cita.estado = Estado.no_asistio ∨ cita.estado = Estado.reprogramada then
      (store, .error (.noReprogramable cita.estado))
    else if (buscarCitaSolapada store (some citaId) cita.medico
        fechaInicio fechaFin).isSome then
      (store, .error .conflictoHorario)
    else
      let original := citaRetirada cita rol motivo
      if fallo = PuntoFallo.entreGuardados then
        (store, .error .errorInterno)
      else
        let nueva := citaSucesora cita fechaInicio fechaFin idNuevo
        let nueva2 := notificarCorreo pacientes nueva ahora emailOk
        if fallo = PuntoFallo.antesCommit then
          (store, .error .errorInterno)
        else
          (confirmarSesion store [original, nueva2], .ok (original, nueva2))

/-- `cancelarCita` (lines 701-775): rejects terminal states, checks the
caller's permission (a paciente may cancel only their own cita, a medico
only theirs), then sets `cancelada` with `canceladoPor` forced to the
caller's role for paciente/medico callers and taken from the request
(default `sistema`) otherwise.  `pacienteDelUsuario` is the id of the
`Paciente` document whose `usuario` is the caller, when one exists. -/
def cancelarCita (store : List Cita) (rol : Rol) (userId : Nat)
    (pacienteDelUsuario : Option Nat) (citaId : Nat)
    (motivo : Option String) (canceladoPor : Option CanceladoPor) :
    Except ErrorRespuesta (List Cita × Cita) :=
  match buscarCita store citaId with
  | none => .error .citaNoEncontrada
  | some cita =>
    if cita.estado = Estado.completada ∨ cita.estado = Estado.cancelada ∨
        cita.estado = Estado.no_asistio then
      .error (.noCancelable cita.estado)
    else if rol = Rol.paciente ∧ pacienteDelUsuario ≠ some cita.paciente then
      .error .sinPermiso
    else if rol = Rol.medico ∧ userId ≠ cita.medico then
      .error .sinPermiso
    else
      let origen :=
        if rol = Rol.paciente then CanceladoPor.paciente
        else if rol = Rol.medico then CanceladoPor.medico
        else canceladoPor.getD CanceladoPor.sistema
      let c := { cita with
        estado := Estado.cancelada,
        canceladoPor := origen,
        motivoCancelacion := some (oPorDefecto motivo "No se especificó motivo") }
      .ok (guardarCita store c, c)

/-- Parse the request's `canceladoPor` string against the `isIn` list of
the cancel route (`['paciente', 'medico', 'sistema']`). -/
def leerCanceladoPor : String → Option CanceladoPor
  | "paciente" => some CanceladoPor.paciente
  | "medico" => some CanceladoPor.medico
  | "sistema" => some CanceladoPor.sistema
  | _ => none

/-- `POST /api/citas/:id/cancelar` including its route-level validators
(`src/routes/citas.js` lines 144-147): `motivo` must be non-empty and
`canceladoPor` must be one of the three allowed strings, otherwise the
`validate` middleware answers 400 before the controller runs. -/
def rutaCancelar (store : List Cita) (rol : Rol) (userId : Nat)
    (pacienteDelUsuario : Option Nat) (citaId : Nat)
    (motivo : Option String) (canceladoPor : Option String) :
    Except ErrorRespuesta (List Cita × Cita) :=
  if truthy motivo = false then .error .datosNoValidos
  else
    match canceladoPor with
    | none => .error .datosNoValidos
    | some s =>
      match leerCanceladoPor s with
      | none => .error .datosNoValidos
      | some cp =>
        cancelarCita store rol userId pacienteDelUsuario citaId motivo (some cp)

/-- The store a request leaves behind: the one the operation returns on
success, the untouched one when it answered an error (the controller
returns before any `save` on every error path). -/
def almacenTras (store : List Cita)
    (r : Except ErrorRespuesta (List Cita × Cita)) : List Cita :=
  match r with
  | .ok (st, _) => st
  | .error _ => store

/-- The cita stripped of its notification log: the fields whose values
must not depend on notification outcomes. -/
def nucleo (c : Cita) : Cita :=
  { c with recordatoriosEnviados := [] }

/-! ## Helper lemmas about the store -/

theorem buscarCita_guardarCita (store : List Cita) (c : Cita) :
    buscarCita (guardarCita store c) c.id = some c := by
  unfold buscarCita guardarCita
  split
  · rename_i hany
    induction store with
    | nil => simp at hany
    | cons x xs ih =>
      by_cases hx : x.id = c.id
      · rw [List.map_cons, if_pos hx]
        exact List.find?_cons_of_pos _ (by simp)
      · rw [List.map_cons, if_neg hx]
        rw [List.find?_cons_of_neg _ (by simp [hx])]
        apply ih
        simp only [List.any_cons, Bool.or_eq_true] at hany
        rcases hany with h | h
        · exact absurd (by simpa using h) hx
        · exact h
  · rename_i hany
    induction store with
    | nil => simp
    | cons x xs ih =>
      simp only [List.any_cons, Bool.or_eq_true, not_or] at hany
      have hx : ¬ x.id = c.id := fun h => hany.1 (by simp [h])
      rw [List.cons_append, List.find?_cons_of_neg _ (by simp [hx])]
      exact ih hany.2

theorem mem_guardarCita_self (store : List Cita) (c : Cita) :
    c ∈ guardarCita store c := by
  have h := buscarCita_guardarCita store c
  unfold buscarCita at h
  exact List.mem_of_find?_eq_some h

theorem mem_guardarCita_of_ne (store : List Cita) (c a : Cita)
    (ha : a ∈ store) (hne : a.id ≠ c.id) : a ∈ guardarCita store c := by
  unfold guardarCita
  split
  · refine List.mem_map.mpr ⟨a, ha, ?_⟩
    rw [if_neg hne]
  · exact List.mem_append_left _ ha

/-! ## C1: the conflict query against the half-open intersection predicate -/

/-- C1: the conflict check used by Book/Update/Reschedule reports a
conflict exactly when some stored appointment of the same practitioner,
not excluded by id and not in state `cancelada` or `reprogramada`,
intersects the candidate window under the half-open predicate
`s1 < e2 AND s2 < e1`; equivalently, on windows with `end > start` the
implementation's three-clause `$or` coincides with that predicate, so two
windows that merely touch at an endpoint are never reported as a
conflict. -/
theorem conflicto_coincide_interseccion_semiabierta
    (store : List Cita) (excluir : Option Nat) (m : Nat) (s e : Int)
    (hstore : ∀ c ∈ store, c.fechaInicio < c.fechaFin) (hse : s < e) :
    ((buscarCitaSolapada store excluir m s e).isSome ↔
      ∃ c ∈ store, (∀ i, excluir = some i → c.id ≠ i) ∧ c.medico = m ∧
        c.estado ≠ Estado.cancelada ∧ c.estado ≠ Estado.reprogramada ∧
        seSolapanSpec c.fechaInicio c.fechaFin s e = true)
    ∧ ∀ c ∈ store, clausulasSolape s e c
        = seSolapanSpec c.fechaInicio c.fechaFin s e := by
  have equiv : ∀ c ∈ store, clausulasSolape s e c
      = seSolapanSpec c.fechaInicio c.fechaFin s e := by
    intro c hc
    have h := hstore c hc
    apply Bool.eq_iff_iff.mpr
    simp only [clausulasSolape, seSolapanSpec, Bool.or_eq_true, Bool.and_eq_true,
      decide_eq_true_eq]
    omega
  refine ⟨?_, equiv⟩
  rw [buscarCitaSolapada, List.find?_isSome]
  cases excluir with
  | none =>
    constructor
    · rintro ⟨c, hcmem, hp⟩
      simp only [Bool.and_eq_true, decide_eq_true_eq, true_and, and_assoc] at hp
      obtain ⟨hm, hc1, hc2, hsol⟩ := hp
      exact ⟨c, hcmem, by simp, hm, hc1, hc2, (equiv c hcmem) ▸ hsol⟩
    · rintro ⟨c, hcmem, -, hm, hc1, hc2, hsol⟩
      refine ⟨c, hcmem, ?_⟩
      simp only [Bool.and_eq_true, decide_eq_true_eq, true_and, and_assoc]
      exact ⟨hm, hc1, hc2, (equiv c hcmem) ▸ hsol⟩
  | some i =>
    constructor
    · rintro ⟨c, hcmem, hp⟩
      simp only [Bool.and_eq_true, decide_eq_true_eq, true_and, and_assoc] at hp
      obtain ⟨hi, hm, hc1, hc2, hsol⟩ := hp
      refine ⟨c, hcmem, ?_, hm, hc1, hc2, (equiv c hcmem) ▸ hsol⟩
      intro j hj
      cases hj
      exact hi
    · rintro ⟨c, hcmem, hex, hm, hc1, hc2, hsol⟩
      refine ⟨c, hcmem, ?_⟩
      simp only [Bool.and_eq_true, decide_eq_true_eq, true_and, and_assoc]
      exact ⟨hex i rfl, hm, hc1, hc2, (equiv c hcmem) ▸ hsol⟩

/-- Witness for C1: the concrete store holding only `citaEjemplo`
(window `[20,30)`) checked against the candidate window `[30,40)`, which
touches it at the endpoint: the hypotheses hold and the theorem applies. -/
theorem conflicto_coincide_interseccion_semiabierta_witness :
    (∀ c ∈ [citaEjemplo], c.fechaInicio < c.fechaFin) ∧ ((30 : Int) < 40) ∧
    (((buscarCitaSolapada [citaEjemplo] none 7 30 40).isSome ↔
      ∃ c ∈ [citaEjemplo], (∀ i, (none : Option Nat) = some i → c.id ≠ i) ∧
        c.medico = 7 ∧
        c.estado ≠ Estado.cancelada ∧ c.estado ≠ Estado.reprogramada ∧
        seSolapanSpec c.fechaInicio c.fechaFin 30 40 = true)
    ∧ ∀ c ∈ [citaEjemplo], clausulasSolape 30 40 c
        = seSolapanSpec c.fechaInicio c.fechaFin 30 40) :=
  ⟨by decide, by decide,
    conflicto_coincide_interseccion_semiabierta [citaEjemplo] none 7 30 40
      (by decide) (by decide)⟩

/-! ## C2: the state machine of `cambiarEstadoCita` -/

theorem contains_estado_iff (l : List Estado) (x : Estado) :
    l.contains x = true ↔ x ∈ l := by
  simp [List.contains_iff_exists_mem_beq, beq_iff_eq]

/-- A cita already retired by a reschedule: state `reprogramada`. -/
def citaReprogramadaEj : Cita :=
  { citaEjemplo with id := 2, estado := Estado.reprogramada }

/-- C2 counterexample: the claim says every pair outside the
permitted-transition table fails with `InvalidTransition`, and the table
gives `reprogramada` no outgoing transitions; but `cambiarEstadoCita` on a
cita in state `reprogramada` with target `confirmada` succeeds and stores
the new state, because the controller's terminal-state list (line 491)
omits `reprogramada`. -/
theorem cambiarEstado_desde_reprogramada_counterexample :
    cambiarEstadoCita [citaReprogramadaEj] Rol.administrador 2
        Estado.confirmada none
      = Except.ok ([{ citaReprogramadaEj with estado := Estado.confirmada }],
          { citaReprogramadaEj with estado := Estado.confirmada }) := by
  rfl

/-- C2 (amended): for a cita present in the store and a target state
different from its current one, `cambiarEstadoCita` fails (with the
terminal-state error) exactly when the current state is `completada`,
`cancelada` or `no_asistio`; from every other state — including
`reprogramada` — it succeeds, and the stored cita's state becomes the
target. -/
theorem cambiarEstado_rige_por_estados_finales
    (store : List Cita) (rol : Rol) (citaId : Nat) (objetivo : Estado)
    (notas : Option String) (cita : Cita)
    (hfind : buscarCita store citaId = some cita)
    (hne : cita.estado ≠ objetivo) :
    (cita.estado ∈ estadosFinales →
      cambiarEstadoCita store rol citaId objetivo notas
        = .error (.estadoFinalInmutable cita.estado)) ∧
    (cita.estado ∉ estadosFinales →
      ∃ st c, cambiarEstadoCita store rol citaId objetivo notas = .ok (st, c) ∧
        c.estado = objetivo ∧ buscarCita st citaId = some c) := by
  have hid : cita.id = citaId := by
    have h := List.find?_some hfind
    simpa using h
  constructor
  · intro hterm
    have hcond : (estadosFinales.contains cita.estado &&
        decide (cita.estado ≠ objetivo)) = true := by
      rw [Bool.and_eq_true, decide_eq_true_eq]
      exact ⟨(contains_estado_iff _ _).mpr hterm, hne⟩
    simp [cambiarEstadoCita, hfind, hcond]
    exact ⟨hterm, hne⟩
  · intro hnterm
    have hcond : estadosFinales.contains cita.estado = false := by
      rw [← Bool.not_eq_true, contains_estado_iff]
      exact hnterm
    simp only [cambiarEstadoCita, hfind, hcond, Bool.false_and,
      Bool.false_eq_true, if_false]
    refine ⟨_, _, rfl, ?_, ?_⟩
    · cases notas <;> split_ifs <;> rfl
    · cases notas <;> split_ifs <;>
        (rw [← hid]; exact buscarCita_guardarCita store _)

/-- Witness for C2's amended theorem: on the one-cita store (state
`programada`, not terminal) a change to `confirmada` succeeds with the
stored state updated. -/
theorem cambiarEstado_rige_por_estados_finales_witness :
    (citaEjemplo.estado ∉ estadosFinales) ∧
    ∃ st c, cambiarEstadoCita [citaEjemplo] Rol.medico 1 Estado.confirmada none
        = Except.ok (st, c) ∧
      c.estado = Estado.confirmada ∧ buscarCita st 1 = some c :=
  ⟨by decide,
    (cambiarEstado_rige_por_estados_finales [citaEjemplo] Rol.medico 1
      Estado.confirmada none citaEjemplo (by decide) (by decide)).2 (by decide)⟩

/-! ## Sample directory documents for concrete runs -/

/-- A patient with both notification preferences off. -/
def pacienteEj : Paciente where
  id := 3
  usuarioNombre := "Ana"
  usuarioEmail := none
  usuarioTelefono := none
  recordatoriosEmail := false
  recordatoriosSMS := false

/-- A patient who prefers email reminders and has an address. -/
def pacienteConCorreo : Paciente where
  id := 3
  usuarioNombre := "Ana"
  usuarioEmail := some "ana@clinica.test"
  usuarioTelefono := none
  recordatoriosEmail := true
  recordatoriosSMS := false

/-- An active practitioner. -/
def medicoEj : Usuario where
  id := 7
  rol := Rol.medico
  activo := true

/-- An active treatment with no practitioner restriction. -/
def tratamientoEj : Tratamiento where
  id := 4
  activo := true
  profesionalesHabilitados := []

/-- Directories holding exactly the sample patient, practitioner and
treatment. -/
def entornoEj : Entorno where
  pacientes := [pacienteEj]
  usuarios := [medicoEj]
  tratamientos := [tratamientoEj]

/-- Directories where the sample patient prefers email reminders. -/
def entornoConCorreo : Entorno where
  pacientes := [pacienteConCorreo]
  usuarios := [medicoEj]
  tratamientos := [tratamientoEj]

/-! ## C3: the end-after-start precondition on Book -/

/-- A booking request whose window is inverted: it starts at 100 and ends
at 50. -/
def solicitudInvertida : SolicitudCrear where
  paciente := 3
  medico := 7
  tratamiento := 4
  fechaInicio := 100
  fechaFin := 50
  notas := none

/-- C3 (evaluating the code at the failing input): neither the booking
route's validators (`isMongoId`/`isISO8601` only, `src/routes/citas.js`
lines 94-100) nor `crearCita` compare the two bounds, so a request whose
end time precedes its start time is accepted against an empty schedule and
the appointment is persisted with `fechaFin < fechaInicio` — no
`ValidationError` is raised, contradicting the spec's stated precondition
`endTime > startTime` (the repository even defines an unused
`fechaFinPosterior` validator in `src/middleware/validacion.js`). -/
theorem crearCita_acepta_ventana_invertida :
    crearCita entornoEj [] solicitudInvertida 9 0 true true
      = Except.ok
          ([⟨9, 3, 7, 4, 100, 50, Estado.programada, none, none, [],
             CanceladoPor.no_aplica, none⟩],
           ⟨9, 3, 7, 4, 100, 50, Estado.programada, none, none, [],
            CanceladoPor.no_aplica, none⟩) := by
  rfl

/-! ## C6: terminal-state immutability -/

/-- A cita already completed. -/
def citaCompletadaEj : Cita :=
  { citaEjemplo with id := 5, estado := Estado.completada }

/-- C6: on a cita whose state is `completada`, `cancelada` or `no_asistio`,
every `actualizarCita` call fails with the invalid-state error and every
`cambiarEstadoCita` call to a different state fails with the
terminal-state error, and in both cases the store is left unchanged. -/
theorem terminal_inmutable
    (store : List Cita) (pacientes : List Paciente) (rol : Rol)
    (citaId : Nat) (fi ff : Option Int) (notas notas2 : Option String)
    (ahora : Int) (emailOk : Bool) (objetivo : Estado) (cita : Cita)
    (hfind : buscarCita store citaId = some cita)
    (hterm : cita.estado = Estado.completada ∨ cita.estado = Estado.cancelada ∨
      cita.estado = Estado.no_asistio)
    (hne : objetivo ≠ cita.estado) :
    actualizarCita store pacientes citaId fi ff notas ahora emailOk
        = .error (.noActualizable cita.estado) ∧
    almacenTras store
        (actualizarCita store pacientes citaId fi ff notas ahora emailOk)
      = store ∧
    cambiarEstadoCita store rol citaId objetivo notas2
        = .error (.estadoFinalInmutable cita.estado) ∧
    almacenTras store (cambiarEstadoCita store rol citaId objetivo notas2)
      = store := by
  have hmem : cita.estado ∈ estadosFinales := by
    rcases hterm with h | h | h <;> simp [estadosFinales, h]
  have hact : actualizarCita store pacientes citaId fi ff notas ahora emailOk
      = .error (.noActualizable cita.estado) := by
    simp only [actualizarCita, hfind]
    rw [if_pos (by tauto)]
  have hcam : cambiarEstadoCita store rol citaId objetivo notas2
      = .error (.estadoFinalInmutable cita.estado) := by
    simp [cambiarEstadoCita, hfind]
    exact ⟨hmem, fun h => hne h.symm⟩
  exact ⟨hact, by simp [almacenTras, hact], hcam, by simp [almacenTras, hcam]⟩

/-- Witness for C6: a completed cita rejects both an update and a state
change to `programada`, leaving the store as it was. -/
theorem terminal_inmutable_witness :
    actualizarCita [citaCompletadaEj] [] 5 (some 40) none none 0 true
        = .error (.noActualizable Estado.completada) ∧
    almacenTras [citaCompletadaEj]
        (actualizarCita [citaCompletadaEj] [] 5 (some 40) none none 0 true)
      = [citaCompletadaEj] ∧
    cambiarEstadoCita [citaCompletadaEj] Rol.medico 5 Estado.programada none
        = .error (.estadoFinalInmutable Estado.completada) ∧
    almacenTras [citaCompletadaEj]
        (cambiarEstadoCita [citaCompletadaEj] Rol.medico 5 Estado.programada none)
      = [citaCompletadaEj] :=
  terminal_inmutable [citaCompletadaEj] [] Rol.medico 5 (some 40) none none
    none 0 true Estado.programada citaCompletadaEj (by decide)
    (by decide) (by decide)

/-! ## C4 and C5: reprogramarCita -/

theorem notificarCorreo_conserva (ps : List Paciente) (c : Cita) (a : Int)
    (e : Bool) :
    ∃ r, notificarCorreo ps c a e = { c with recordatoriosEnviados := r } := by
  unfold notificarCorreo
  cases hp : ps.find? (fun p => p.id = c.paciente) with
  | none => exact ⟨c.recordatoriosEnviados, rfl⟩
  | some p =>
    dsimp only
    by_cases hcond : (p.recordatoriosEmail && p.usuarioEmail.isSome && e) = true
    · rw [if_pos hcond]; exact ⟨_, rfl⟩
    · rw [if_neg hcond]; exact ⟨c.recordatoriosEnviados, rfl⟩

/-- C4: `reprogramarCita` is atomic over its two writes: whatever failure
point is injected (between the two session saves, or before the commit),
the resulting store is either exactly the starting store, or contains both
the retired original (state `reprogramada`, same id) and the successor
referencing it — never a `reprogramada` original without its successor. -/
theorem reprogramar_atomico
    (store : List Cita) (pacientes : List Paciente) (rol : Rol)
    (citaId : Nat) (fi ff : Int) (motivo : Option String)
    (idNuevo : Nat) (ahora : Int) (emailOk : Bool) (fallo : PuntoFallo)
    (hfresh : ∀ c ∈ store, c.id ≠ idNuevo) :
    (reprogramarCita store pacientes rol citaId fi ff motivo idNuevo ahora
        emailOk fallo).1 = store ∨
    ∃ o n,
      (reprogramarCita store pacientes rol citaId fi ff motivo idNuevo ahora
          emailOk fallo).2 = .ok (o, n) ∧
      o ∈ (reprogramarCita store pacientes rol citaId fi ff motivo idNuevo
            ahora emailOk fallo).1 ∧
      n ∈ (reprogramarCita store pacientes rol citaId fi ff motivo idNuevo
            ahora emailOk fallo).1 ∧
      o.id = citaId ∧ o.estado = Estado.reprogramada ∧
      n.citaOriginal = some citaId := by
  cases hb : buscarCita store citaId with
  | none => left; simp [reprogramarCita, hb]
  | some cita =>
    have hid : cita.id = citaId := by simpa using List.find?_some hb
    have hcmem : cita ∈ store := List.mem_of_find?_eq_some hb
    by_cases hterm : cita.estado = Estado.cancelada ∨
        cita.estado = Estado.completada ∨
        cita.estado = Estado.no_asistio ∨ cita.estado = Estado.reprogramada
    · left; simp [reprogramarCita, hb, hterm]
    · by_cases hconf : (buscarCitaSolapada store (some citaId) cita.medico
          fi ff).isSome = true
      · left; simp [reprogramarCita, hb, hterm, hconf]
      · cases fallo with
        | entreGuardados => left; simp [reprogramarCita, hb, hterm, hconf]
        | antesCommit => left; simp [reprogramarCita, hb, hterm, hconf]
        | ninguno =>
          right
          obtain ⟨r, hr⟩ := notificarCorreo_conserva pacientes
            (citaSucesora cita fi ff idNuevo) ahora emailOk
          have hone : (citaRetirada cita rol motivo).id ≠
              (notificarCorreo pacientes (citaSucesora cita fi ff idNuevo)
                ahora emailOk).id := by
            rw [hr]
            exact hfresh cita hcmem
          refine ⟨citaRetirada cita rol motivo,
            notificarCorreo pacientes (citaSucesora cita fi ff idNuevo)
              ahora emailOk, ?_, ?_, ?_, hid, rfl, ?_⟩
          · simp [reprogramarCita, hb, hterm, hconf]
          · simp only [reprogramarCita, hb, hterm, hconf]
            simp [confirmarSesion]
            exact mem_guardarCita_of_ne _ _ _ (mem_guardarCita_self _ _) hone
          · simp only [reprogramarCita, hb, hterm, hconf]
            simp [confirmarSesion]
            exact mem_guardarCita_self _ _
          · rw [hr]
            show some cita.id = some citaId
            rw [hid]

/-- Witness for C4: rescheduling the sample cita to `[50,60)` with fresh
id 9 and no injected failure. -/
theorem reprogramar_atomico_witness :
    (∀ c ∈ [citaEjemplo], c.id ≠ 9) ∧
    ((reprogramarCita [citaEjemplo] [] Rol.secretaria 1 50 60 none 9 0 true
        PuntoFallo.ninguno).1 = [citaEjemplo] ∨
      ∃ o n,
        (reprogramarCita [citaEjemplo] [] Rol.secretaria 1 50 60 none 9 0 true
            PuntoFallo.ninguno).2 = .ok (o, n) ∧
        o ∈ (reprogramarCita [citaEjemplo] [] Rol.secretaria 1 50 60 none 9 0
              true PuntoFallo.ninguno).1 ∧
        n ∈ (reprogramarCita [citaEjemplo] [] Rol.secretaria 1 50 60 none 9 0
              true PuntoFallo.ninguno).1 ∧
        o.id = 1 ∧ o.estado = Estado.reprogramada ∧
        n.citaOriginal = some 1) :=
  ⟨by decide,
    reprogramar_atomico [citaEjemplo] [] Rol.secretaria 1 50 60 none 9 0 true
      PuntoFallo.ninguno (by decide)⟩

/-- C5: whenever `reprogramarCita` answers success, the returned original
is the retired record — state `reprogramada`, `canceladoPor` derived from
the caller's role, the reason recorded (with the code's default) — and the
returned successor is a `programada` cita carrying the same
paciente/medico/tratamiento/notas, the new window, the fresh id, and a
`citaOriginal` back-reference to the original's id. -/
theorem reprogramar_exito_postcondiciones
    (store : List Cita) (pacientes : List Paciente) (rol : Rol)
    (citaId : Nat) (fi ff : Int) (motivo : Option String)
    (idNuevo : Nat) (ahora : Int) (emailOk : Bool) (fallo : PuntoFallo)
    (cita : Cita) (hb : buscarCita store citaId = some cita)
    (o n : Cita)
    (hok : (reprogramarCita store pacientes rol citaId fi ff motivo idNuevo
        ahora emailOk fallo).2 = .ok (o, n)) :
    o.estado = Estado.reprogramada ∧
    o.canceladoPor = (if rol = Rol.paciente then CanceladoPor.paciente
                      else CanceladoPor.medico) ∧
    o.motivoCancelacion = some (oPorDefecto motivo "Cita reprogramada") ∧
    o.id = cita.id ∧
    n.estado = Estado.programada ∧ n.paciente = cita.paciente ∧
    n.medico = cita.medico ∧ n.tratamiento = cita.tratamiento ∧
    n.notas = cita.notas ∧ n.fechaInicio = fi ∧ n.fechaFin = ff ∧
    n.citaOriginal = some cita.id ∧ n.id = idNuevo := by
  by_cases hterm : cita.estado = Estado.cancelada ∨
      cita.estado = Estado.completada ∨
      cita.estado = Estado.no_asistio ∨ cita.estado = Estado.reprogramada
  · simp [reprogramarCita, hb, hterm] at hok
  · by_cases hconf : (buscarCitaSolapada store (some citaId) cita.medico
        fi ff).isSome = true
    · simp [reprogramarCita, hb, hterm, hconf] at hok
    · cases fallo with
      | entreGuardados => simp [reprogramarCita, hb, hterm, hconf] at hok
      | antesCommit => simp [reprogramarCita, hb, hterm, hconf] at hok
      | ninguno =>
        obtain ⟨r, hr⟩ := notificarCorreo_conserva pacientes
          (citaSucesora cita fi ff idNuevo) ahora emailOk
        simp [reprogramarCita, hb, hterm, hconf, hr, Prod.ext_iff] at hok
        obtain ⟨ho, hn⟩ := hok
        subst ho hn
        simp [citaRetirada, citaSucesora]

/-- The retired original of the witness reschedule run. -/
def citaRetiradaEj : Cita := citaRetirada citaEjemplo Rol.secretaria none

/-- The successor of the witness reschedule run (no patient directory, so
the notification block leaves it untouched). -/
def citaSucesoraEj : Cita := citaSucesora citaEjemplo 50 60 9

/-- Witness for C5: rescheduling the sample cita to `[50,60)` as a
secretaria returns the retired original and the back-referencing
successor. -/
theorem reprogramar_exito_postcondiciones_witness :
    citaRetiradaEj.estado = Estado.reprogramada ∧
    citaRetiradaEj.canceladoPor
        = (if Rol.secretaria = Rol.paciente then CanceladoPor.paciente
           else CanceladoPor.medico) ∧
    citaRetiradaEj.motivoCancelacion
        = some (oPorDefecto none "Cita reprogramada") ∧
    citaRetiradaEj.id = citaEjemplo.id ∧
    citaSucesoraEj.estado = Estado.programada ∧
    citaSucesoraEj.paciente = citaEjemplo.paciente ∧
    citaSucesoraEj.medico = citaEjemplo.medico ∧
    citaSucesoraEj.tratamiento = citaEjemplo.tratamiento ∧
    citaSucesoraEj.notas = citaEjemplo.notas ∧
    citaSucesoraEj.fechaInicio = 50 ∧ citaSucesoraEj.fechaFin = 60 ∧
    citaSucesoraEj.citaOriginal = some citaEjemplo.id ∧
    citaSucesoraEj.id = 9 :=
  reprogramar_exito_postcondiciones [citaEjemplo] [] Rol.secretaria 1 50 60
    none 9 0 true PuntoFallo.ninguno citaEjemplo (by decide)
    citaRetiradaEj citaSucesoraEj rfl

/-! ## C9: the frame of actualizarCita -/

theorem notificarCorreo_id (ps : List Paciente) (c : Cita) (a : Int)
    (e : Bool) : (notificarCorreo ps c a e).id = c.id := by
  obtain ⟨r, hr⟩ := notificarCorreo_conserva ps c a e
  rw [hr]

theorem notificarCorreo_paciente (ps : List Paciente) (c : Cita) (a : Int)
    (e : Bool) : (notificarCorreo ps c a e).paciente = c.paciente := by
  obtain ⟨r, hr⟩ := notificarCorreo_conserva ps c a e
  rw [hr]

theorem notificarCorreo_medico (ps : List Paciente) (c : Cita) (a : Int)
    (e : Bool) : (notificarCorreo ps c a e).medico = c.medico := by
  obtain ⟨r, hr⟩ := notificarCorreo_conserva ps c a e
  rw [hr]

theorem notificarCorreo_tratamiento (ps : List Paciente) (c : Cita) (a : Int)
    (e : Bool) : (notificarCorreo ps c a e).tratamiento = c.tratamiento := by
  obtain ⟨r, hr⟩ := notificarCorreo_conserva ps c a e
  rw [hr]

theorem notificarCorreo_estado (ps : List Paciente) (c : Cita) (a : Int)
    (e : Bool) : (notificarCorreo ps c a e).estado = c.estado := by
  obtain ⟨r, hr⟩ := notificarCorreo_conserva ps c a e
  rw [hr]

theorem notificarCorreo_citaOriginal (ps : List Paciente) (c : Cita)
    (a : Int) (e : Bool) :
    (notificarCorreo ps c a e).citaOriginal = c.citaOriginal := by
  obtain ⟨r, hr⟩ := notificarCorreo_conserva ps c a e
  rw [hr]

theorem notificarCorreo_canceladoPor (ps : List Paciente) (c : Cita)
    (a : Int) (e : Bool) :
    (notificarCorreo ps c a e).canceladoPor = c.canceladoPor := by
  obtain ⟨r, hr⟩ := notificarCorreo_conserva ps c a e
  rw [hr]

theorem notificarCorreo_motivo (ps : List Paciente) (c : Cita) (a : Int)
    (e : Bool) :
    (notificarCorreo ps c a e).motivoCancelacion = c.motivoCancelacion := by
  obtain ⟨r, hr⟩ := notificarCorreo_conserva ps c a e
  rw [hr]

/-- C9: a successful `actualizarCita` leaves every field other than the
time window, the notes and the notification log as it was: the returned
(and stored) cita keeps the original's id, paciente, medico, tratamiento,
estado, citaOriginal, canceladoPor and motivoCancelacion. -/
theorem actualizar_marco
    (store : List Cita) (pacientes : List Paciente) (citaId : Nat)
    (fi ff : Option Int) (notas : Option String) (ahora : Int)
    (emailOk : Bool) (cita c : Cita) (st : List Cita)
    (hb : buscarCita store citaId = some cita)
    (hok : actualizarCita store pacientes citaId fi ff notas ahora emailOk
      = .ok (st, c)) :
    c.id = cita.id ∧ c.paciente = cita.paciente ∧ c.medico = cita.medico ∧
    c.tratamiento = cita.tratamiento ∧ c.estado = cita.estado ∧
    c.citaOriginal = cita.citaOriginal ∧
    c.canceladoPor = cita.canceladoPor ∧
    c.motivoCancelacion = cita.motivoCancelacion := by
  by_cases hterm : cita.estado = Estado.cancelada ∨
      cita.estado = Estado.completada ∨ cita.estado = Estado.no_asistio
  · simp [actualizarCita, hb, hterm] at hok
  · simp only [actualizarCita, hb] at hok
    rw [if_neg hterm] at hok
    cases notas with
    | none =>
      split_ifs at hok with h1 h2 <;>
        simp only [Except.ok.injEq, Prod.mk.injEq] at hok <;>
        obtain ⟨-, hc⟩ := hok <;> subst hc <;>
        simp [notificarCorreo_id, notificarCorreo_paciente,
          notificarCorreo_medico, notificarCorreo_tratamiento,
          notificarCorreo_estado, notificarCorreo_citaOriginal,
          notificarCorreo_canceladoPor, notificarCorreo_motivo]
    | some nn =>
      split_ifs at hok with h1 h2 <;>
        simp only [Except.ok.injEq, Prod.mk.injEq] at hok <;>
        obtain ⟨-, hc⟩ := hok <;> subst hc <;>
        simp [notificarCorreo_id, notificarCorreo_paciente,
          notificarCorreo_medico, notificarCorreo_tratamiento,
          notificarCorreo_estado, notificarCorreo_citaOriginal,
          notificarCorreo_canceladoPor, notificarCorreo_motivo]

/-- The sample cita after the witness update to window `[40,55)`. -/
def citaActualizadaEj : Cita :=
  { citaEjemplo with fechaInicio := 40, fechaFin := 55 }

/-- Witness for C9: moving the sample cita to `[40,55)` (no other cita of
the practitioner, so no conflict) keeps every non-window field. -/
theorem actualizar_marco_witness :
    citaActualizadaEj.id = citaEjemplo.id ∧
    citaActualizadaEj.paciente = citaEjemplo.paciente ∧
    citaActualizadaEj.medico = citaEjemplo.medico ∧
    citaActualizadaEj.tratamiento = citaEjemplo.tratamiento ∧
    citaActualizadaEj.estado = citaEjemplo.estado ∧
    citaActualizadaEj.citaOriginal = citaEjemplo.citaOriginal ∧
    citaActualizadaEj.canceladoPor = citaEjemplo.canceladoPor ∧
    citaActualizadaEj.motivoCancelacion = citaEjemplo.motivoCancelacion :=
  actualizar_marco [citaEjemplo] [] 1 (some 40) (some 55) none 0 true
    citaEjemplo citaActualizadaEj [citaActualizadaEj] (by decide) rfl

/-! ## C7 and C10: cancellation -/

theorem leerCanceladoPor_no_aplica (s : String) (cp : CanceladoPor)
    (h : leerCanceladoPor s = some cp) : cp ≠ CanceladoPor.no_aplica := by
  intro hcp
  subst hcp
  unfold leerCanceladoPor at h
  split at h <;> simp at h

theorem cancelarCita_exito
    (store : List Cita) (rol : Rol) (userId : Nat) (pacU : Option Nat)
    (citaId : Nat) (motivo : Option String) (cp : Option CanceladoPor)
    (st : List Cita) (c : Cita)
    (hok : cancelarCita store rol userId pacU citaId motivo cp
      = .ok (st, c)) :
    c.canceladoPor = (if rol = Rol.paciente then CanceladoPor.paciente
                      else if rol = Rol.medico then CanceladoPor.medico
                      else cp.getD CanceladoPor.sistema) ∧
    c.estado = Estado.cancelada ∧
    c.motivoCancelacion
      = some (oPorDefecto motivo "No se especificó motivo") := by
  cases hb : buscarCita store citaId with
  | none => simp [cancelarCita, hb] at hok
  | some cita =>
    by_cases hterm : cita.estado = Estado.completada ∨
        cita.estado = Estado.cancelada ∨ cita.estado = Estado.no_asistio
    · simp [cancelarCita, hb, hterm] at hok
    · simp only [cancelarCita, hb] at hok
      rw [if_neg hterm] at hok
      split_ifs at hok <;> simp only [reduceCtorEq, Except.ok.injEq,
        Prod.mk.injEq] at hok <;> obtain ⟨-, hc⟩ := hok <;> subst hc <;>
        simp_all

/-- The sample cita cancelled through `cambiarEstadoCita` with no reason
supplied: the controller stores the default reason text. -/
def citaCanceladaDefecto : Cita :=
  { citaEjemplo with
    estado := Estado.cancelada,
    canceladoPor := CanceladoPor.medico,
    motivoCancelacion := some "No se especificó motivo" }

/-- C7 counterexample: a request that moves the sample cita into
`cancelada` via `cambiarEstadoCita` with a missing reason does not fail
with a validation error — it succeeds, storing the default reason text,
because only the cancel route (`body('motivo').notEmpty()`) demands a
reason, not the state-change route or controller. -/
theorem cambiarEstado_cancelada_sin_motivo_counterexample :
    cambiarEstadoCita [citaEjemplo] Rol.secretaria 1 Estado.cancelada none
      = Except.ok ([citaCanceladaDefecto], citaCanceladaDefecto) := rfl

/-- C7 (amended): the cancel route rejects a blank or missing motivo with
a validation error before the controller runs; every cita a successful
cancel-route call stores carries a canceladoPor other than `no_aplica`
(hence in {paciente, medico, sistema}); but `cambiarEstadoCita` into
`cancelada` accepts a blank or missing reason, recording the caller-role
canceladoPor and the defaulted reason text instead of failing. -/
theorem cancelacion_motivo_y_origen
    (store : List Cita) (rol : Rol) (userId : Nat) (pacU : Option Nat)
    (citaId : Nat) (motivo : Option String) (canceladoPor : Option String)
    (notas : Option String) :
    (truthy motivo = false →
      rutaCancelar store rol userId pacU citaId motivo canceladoPor
        = .error .datosNoValidos) ∧
    (∀ st c, rutaCancelar store rol userId pacU citaId motivo canceladoPor
        = .ok (st, c) → c.canceladoPor ≠ CanceladoPor.no_aplica) ∧
    (∀ st c, cambiarEstadoCita store rol citaId Estado.cancelada notas
        = .ok (st, c) →
      (c.canceladoPor = CanceladoPor.paciente ∨
       c.canceladoPor = CanceladoPor.medico) ∧
      c.motivoCancelacion
        = some (oPorDefecto notas "No se especificó motivo")) := by
  refine ⟨?_, ?_, ?_⟩
  · intro h
    unfold rutaCancelar
    rw [if_pos h]
  · intro st c h
    unfold rutaCancelar at h
    by_cases h1 : truthy motivo = false
    · rw [if_pos h1] at h
      exact absurd h (by simp)
    · rw [if_neg h1] at h
      cases canceladoPor with
      | none => simp at h
      | some s =>
        dsimp only at h
        cases hlc : leerCanceladoPor s with
        | none => rw [hlc] at h; simp at h
        | some cp =>
          rw [hlc] at h
          have hval := (cancelarCita_exito store rol userId pacU citaId
            motivo (some cp) st c h).1
          rw [hval]
          have hnap := leerCanceladoPor_no_aplica s cp hlc
          split_ifs <;> simp_all [Option.getD]
  · intro st c h
    cases hb : buscarCita store citaId with
    | none => simp [cambiarEstadoCita, hb] at h
    | some cita =>
      by_cases hP : cita.estado ∈ estadosFinales ∧
          ¬cita.estado = Estado.cancelada
      · simp [cambiarEstadoCita, hb, hP] at h
      · simp [cambiarEstadoCita, hb, hP, Prod.ext_iff] at h
        obtain ⟨-, hc⟩ := h
        subst hc
        constructor
        · split_ifs <;> simp
        · rfl

/-- Witness for C7's amended theorem: a cancel-route call with no motivo
is rejected as invalid data, and the concrete `cambiarEstadoCita`
cancellation without a reason stores `canceladoPor = medico` with the
default reason. -/
theorem cancelacion_motivo_y_origen_witness :
    rutaCancelar [citaEjemplo] Rol.secretaria 9 none 1 none (some "sistema")
        = .error .datosNoValidos ∧
    ((citaCanceladaDefecto.canceladoPor = CanceladoPor.paciente ∨
      citaCanceladaDefecto.canceladoPor = CanceladoPor.medico) ∧
     citaCanceladaDefecto.motivoCancelacion
        = some (oPorDefecto none "No se especificó motivo")) :=
  ⟨(cancelacion_motivo_y_origen [citaEjemplo] Rol.secretaria 9 none 1 none
      (some "sistema") none).1 (by decide),
   (cancelacion_motivo_y_origen [citaEjemplo] Rol.secretaria 9 none 1 none
      (some "sistema") none).2.2 [citaCanceladaDefecto] citaCanceladaDefecto
      rfl⟩

/-- C10: for a successful `cancelarCita`, a paciente or medico caller's
role overrides whatever canceladoPor the request supplied, while for the
other roles (administrador, secretaria) the stored value is the supplied
one, defaulting to `sistema` when absent. -/
theorem cancelar_origen_segun_rol
    (store : List Cita) (rol : Rol) (userId : Nat) (pacU : Option Nat)
    (citaId : Nat) (motivo : Option String) (cp : Option CanceladoPor)
    (st : List Cita) (c : Cita)
    (hok : cancelarCita store rol userId pacU citaId motivo cp
      = .ok (st, c)) :
    (rol = Rol.paciente → c.canceladoPor = CanceladoPor.paciente) ∧
    (rol = Rol.medico → c.canceladoPor = CanceladoPor.medico) ∧
    (rol = Rol.administrador ∨ rol = Rol.secretaria →
      c.canceladoPor = cp.getD CanceladoPor.sistema) := by
  have h := (cancelarCita_exito store rol userId pacU citaId motivo cp st c
    hok).1
  refine ⟨?_, ?_, ?_⟩
  · intro hr; subst hr; simpa using h
  · intro hr; subst hr; simpa using h
  · intro hr
    rcases hr with hr | hr <;> subst hr <;> simpa using h

/-- The sample cita cancelled by an administrador who supplied
`canceladoPor = paciente` in the request body. -/
def citaCanceladaAdmin : Cita :=
  { citaEjemplo with
    estado := Estado.cancelada,
    canceladoPor := CanceladoPor.paciente,
    motivoCancelacion := some "agenda cerrada" }

/-- Witness for C10: an administrador cancelling the sample cita with a
supplied canceladoPor sees that value stored. -/
theorem cancelar_origen_segun_rol_witness :
    (Rol.administrador = Rol.paciente →
      citaCanceladaAdmin.canceladoPor = CanceladoPor.paciente) ∧
    (Rol.administrador = Rol.medico →
      citaCanceladaAdmin.canceladoPor = CanceladoPor.medico) ∧
    (Rol.administrador = Rol.administrador ∨
        Rol.administrador = Rol.secretaria →
      citaCanceladaAdmin.canceladoPor
        = (some CanceladoPor.paciente).getD CanceladoPor.sistema) :=
  cancelar_origen_segun_rol [citaEjemplo] Rol.administrador 99 none 1
    (some "agenda cerrada") (some CanceladoPor.paciente)
    [citaCanceladaAdmin] citaCanceladaAdmin rfl

/-! ## C8: notification failures never change the outcome -/

/-- A well-formed booking request for the sample directories: window
`[100,130)`. -/
def solicitudEj : SolicitudCrear where
  paciente := 3
  medico := 7
  tratamiento := 4
  fechaInicio := 100
  fechaFin := 130
  notas := none

/-- C8 counterexample: with a patient who prefers email, the persisted
cita after a failed email send differs from the one after a successful
send — the `enviado` log entry is missing — so the appointment is not
persisted *exactly* as if the notification had succeeded; only its
non-log fields are. -/
theorem notificacion_cambia_registro_counterexample :
    (crearCita entornoConCorreo [] solicitudEj 9 0 true true).map
        (fun r => r.2.recordatoriosEnviados)
      = .ok [⟨Canal.email, 0, "enviado"⟩] ∧
    (crearCita entornoConCorreo [] solicitudEj 9 0 false true).map
        (fun r => r.2.recordatoriosEnviados)
      = .ok [] ∧
    ([⟨Canal.email, 0, "enviado"⟩] : List Recordatorio) ≠ [] :=
  ⟨rfl, rfl, by decide⟩

theorem notificarCreacion_conserva (p : Paciente) (c : Cita) (a : Int)
    (e s : Bool) :
    ∃ r, notificarCreacion p c a e s
      = { c with recordatoriosEnviados := r } := by
  unfold notificarCreacion
  dsimp only
  by_cases h1 : (p.recordatoriosEmail && p.usuarioEmail.isSome && !e) = true
  · rw [if_pos h1]
    exact ⟨c.recordatoriosEnviados, rfl⟩
  · rw [if_neg h1]
    by_cases h2 : (p.recordatoriosSMS && p.usuarioTelefono.isSome && !s)
        = true
    · rw [if_pos h2]
      by_cases h3 : (p.recordatoriosEmail && p.usuarioEmail.isSome) = true
      · rw [if_pos h3]; exact ⟨_, rfl⟩
      · rw [if_neg h3]; exact ⟨c.recordatoriosEnviados, rfl⟩
    · rw [if_neg h2]
      by_cases h4 : (p.recordatoriosSMS && p.usuarioTelefono.isSome) = true
      · rw [if_pos h4]
        by_cases h3 : (p.recordatoriosEmail && p.usuarioEmail.isSome) = true
        · rw [if_pos h3]; exact ⟨_, rfl⟩
        · rw [if_neg h3]; exact ⟨_, rfl⟩
      · rw [if_neg h4]
        by_cases h3 : (p.recordatoriosEmail && p.usuarioEmail.isSome) = true
        · rw [if_pos h3]; exact ⟨_, rfl⟩
        · rw [if_neg h3]; exact ⟨c.recordatoriosEnviados, rfl⟩

theorem map_nucleo_guardarCita (st : List Cita) (a b : Cita)
    (hab : nucleo a = nucleo b) :
    (guardarCita st a).map nucleo = (guardarCita st b).map nucleo := by
  have hid : a.id = b.id := by
    have h := congrArg Cita.id hab
    simpa [nucleo] using h
  unfold guardarCita
  rw [show (st.any fun x => x.id = a.id) = (st.any fun x => x.id = b.id) by
    rw [hid]]
  split
  · rw [List.map_map, List.map_map]
    apply List.map_congr_left
    intro x hx
    simp only [Function.comp_apply]
    by_cases hxa : x.id = a.id
    · rw [if_pos hxa, if_pos (show x.id = b.id from hid ▸ hxa)]
      exact hab
    · rw [if_neg hxa, if_neg (show ¬ x.id = b.id from hid ▸ hxa)]
  · rw [List.map_append, List.map_append]
    simp [hab]

/-- The result of an operation with the notification log of every cita
erased: the part of the outcome that must not depend on notification
success. -/
def nucleoResultado (r : Except ErrorRespuesta (List Cita × Cita)) :
    Except ErrorRespuesta (List Cita × Cita) :=
  r.map (fun p => (p.1.map nucleo, nucleo p.2))

/-- Same for `reprogramarCita`'s store-and-response pair. -/
def nucleoTransaccion (r : List Cita × Except ErrorRespuesta (Cita × Cita)) :
    List Cita × Except ErrorRespuesta (Cita × Cita) :=
  (r.1.map nucleo, r.2.map (fun p => (nucleo p.1, nucleo p.2)))

theorem nucleoResultado_crearCita (env : Entorno) (store : List Cita)
    (req : SolicitudCrear) (idNuevo : Nat) (ahora : Int)
    (e1 s1 e2 s2 : Bool) :
    nucleoResultado (crearCita env store req idNuevo ahora e1 s1)
      = nucleoResultado (crearCita env store req idNuevo ahora e2 s2) := by
  unfold crearCita
  cases hp : env.pacientes.find? (fun p => p.id = req.paciente) with
  | none => rfl
  | some pac =>
    cases hu : env.usuarios.find? (fun u =>
        u.id = req.medico && u.rol = Rol.medico && u.activo) with
    | none => rfl
    | some u =>
      cases ht : env.tratamientos.find? (fun t =>
          t.id = req.tratamiento && t.activo) with
      | none => rfl
      | some trat =>
        dsimp only
        split_ifs with h1 h2
        · rfl
        · rfl
        · obtain ⟨r1, hr1⟩ := notificarCreacion_conserva pac
            (citaNueva req idNuevo) ahora e1 s1
          obtain ⟨r2, hr2⟩ := notificarCreacion_conserva pac
            (citaNueva req idNuevo) ahora e2 s2
          rw [hr1, hr2]
          unfold nucleoResultado
          simp only [Except.map]
          exact congrArg Except.ok
            (Prod.ext (map_nucleo_guardarCita _ _ _ rfl) rfl)

theorem nucleoResultado_ok_notificar (ps : List Paciente) (st : List Cita)
    (c : Cita) (a : Int) (e1 e2 : Bool) :
    nucleoResultado (.ok (guardarCita st (notificarCorreo ps c a e1),
        notificarCorreo ps c a e1))
      = nucleoResultado (.ok (guardarCita st (notificarCorreo ps c a e2),
          notificarCorreo ps c a e2)) := by
  obtain ⟨r1, hr1⟩ := notificarCorreo_conserva ps c a e1
  obtain ⟨r2, hr2⟩ := notificarCorreo_conserva ps c a e2
  rw [hr1, hr2]
  unfold nucleoResultado
  simp only [Except.map]
  exact congrArg Except.ok
    (Prod.ext (map_nucleo_guardarCita _ _ _ rfl) rfl)

theorem nucleoResultado_actualizarCita (store : List Cita)
    (pacientes : List Paciente) (citaId : Nat) (fi ff : Option Int)
    (notas : Option String) (ahora : Int) (e1 e2 : Bool) :
    nucleoResultado (actualizarCita store pacientes citaId fi ff notas
        ahora e1)
      = nucleoResultado (actualizarCita store pacientes citaId fi ff notas
          ahora e2) := by
  unfold actualizarCita
  cases hb : buscarCita store citaId with
  | none => rfl
  | some cita =>
    dsimp only
    split_ifs <;>
      first
      | rfl
      | exact nucleoResultado_ok_notificar pacientes _ _ ahora e1 e2

theorem nucleoTransaccion_reprogramarCita (store : List Cita)
    (pacientes : List Paciente) (rol : Rol) (citaId : Nat) (fi ff : Int)
    (motivo : Option String) (idNuevo : Nat) (ahora : Int) (e1 e2 : Bool)
    (fallo : PuntoFallo) :
    nucleoTransaccion (reprogramarCita store pacientes rol citaId fi ff
        motivo idNuevo ahora e1 fallo)
      = nucleoTransaccion (reprogramarCita store pacientes rol citaId fi ff
          motivo idNuevo ahora e2 fallo) := by
  unfold reprogramarCita
  cases hb : buscarCita store citaId with
  | none => rfl
  | some cita =>
    dsimp only
    split_ifs with h1 h2 h3 h4
    all_goals try rfl
    obtain ⟨r1, hr1⟩ := notificarCorreo_conserva pacientes
      (citaSucesora cita fi ff idNuevo) ahora e1
    obtain ⟨r2, hr2⟩ := notificarCorreo_conserva pacientes
      (citaSucesora cita fi ff idNuevo) ahora e2
    rw [hr1, hr2]
    unfold nucleoTransaccion confirmarSesion
    simp only [List.foldl, Except.map]
    exact Prod.ext (map_nucleo_guardarCita _ _ _ rfl) rfl

/-- C8 (amended): a notification-dispatch failure never changes the
operation's outcome: for Book, Update and Reschedule the result — the
error or success answer, the persisted store and the returned citas — is
identical up to the notification log (`recordatoriosEnviados`, where the
per-channel success entry is recorded only for sends that succeeded)
whatever the email/SMS dispatch outcomes are. -/
theorem notificacion_no_cambia_resultado
    (env : Entorno) (store : List Cita) (req : SolicitudCrear)
    (pacientes : List Paciente) (rol : Rol) (citaId : Nat)
    (fi ff : Option Int) (fi2 ff2 : Int) (notas motivo : Option String)
    (idNuevo : Nat) (ahora : Int) (fallo : PuntoFallo) (e1 s1 e2 s2 : Bool) :
    nucleoResultado (crearCita env store req idNuevo ahora e1 s1)
      = nucleoResultado (crearCita env store req idNuevo ahora e2 s2) ∧
    nucleoResultado (actualizarCita store pacientes citaId fi ff notas
        ahora e1)
      = nucleoResultado (actualizarCita store pacientes citaId fi ff notas
          ahora e2) ∧
    nucleoTransaccion (reprogramarCita store pacientes rol citaId fi2 ff2
        motivo idNuevo ahora e1 fallo)
      = nucleoTransaccion (reprogramarCita store pacientes rol citaId fi2
          ff2 motivo idNuevo ahora e2 fallo) :=
  ⟨nucleoResultado_crearCita env store req idNuevo ahora e1 s1 e2 s2,
   nucleoResultado_actualizarCita store pacientes citaId fi ff notas ahora
     e1 e2,
   nucleoTransaccion_reprogramarCita store pacientes rol citaId fi2 ff2
     motivo idNuevo ahora e1 e2 fallo⟩
